import Mathlib

/-!
Shallow embedding of the One Capital auto-investing contracts
(allocation drift engine, rebalance planner/executor, take-profit
evaluator) together with proofs of the specification claims.

The host clock `l1x_sdk::env::block_timestamp()` is modelled by an
explicit `now : Nat` argument threaded through every time-sensitive
operation.  Machine integers (`u32`, `u64`, `u128`) are modelled as
`Nat`; the only place the source relies on wrap/saturation semantics is
`saturating_sub` (which is exactly `Nat` subtraction) and the saturating
`u128` addition in cost aggregation (modelled explicitly below).
-/

namespace OneCapital

/-- Embeds `AssetAllocation` from `src/rust-contracts/src/allocation/mod.rs`. -/
structure AssetAllocation where
  asset_id : String
  current_percentage : Nat
  target_percentage : Nat
  last_modified : Nat
  last_rebalance : Nat
  last_price : Option Nat
deriving Repr, DecidableEq

/-- Embeds `AssetAllocation::new`: `current` starts equal to `target`. -/
def AssetAllocation.new (asset_id : String) (target_percentage : Nat) (now : Nat) :
    AssetAllocation :=
  { asset_id := asset_id
    current_percentage := target_percentage
    target_percentage := target_percentage
    last_modified := now
    last_rebalance := 0
    last_price := none }

/-- Embeds `AssetAllocation::update_current_percentage`. -/
def AssetAllocation.update_current_percentage (a : AssetAllocation) (percentage now : Nat) :
    AssetAllocation :=
  { a with current_percentage := percentage, last_modified := now }

/-- Embeds `AssetAllocation::update_target_percentage`. -/
def AssetAllocation.update_target_percentage (a : AssetAllocation) (percentage now : Nat) :
    AssetAllocation :=
  { a with target_percentage := percentage, last_modified := now }

/-- Embeds `AssetAllocation::record_rebalance`. -/
def AssetAllocation.record_rebalance (a : AssetAllocation) (current_price : Option Nat)
    (now : Nat) : AssetAllocation :=
  { a with last_rebalance := now
           current_percentage := a.target_percentage
           last_price := current_price }

/-- Embeds `AssetAllocation::drift`: absolute difference in basis points. -/
def AssetAllocation.drift (a : AssetAllocation) : Nat :=
  if a.current_percentage > a.target_percentage then
    a.current_percentage - a.target_percentage
  else
    a.target_percentage - a.current_percentage

/-- Embeds `AllocationSet` from `src/rust-contracts/src/allocation/mod.rs`. -/
structure AllocationSet where
  drift_threshold_bp : Nat
  rebalance_frequency_seconds : Nat
  allocations : List AssetAllocation
  last_rebalance : Nat
deriving Repr, DecidableEq

/-- Embeds `AllocationSet::new`. -/
def AllocationSet.mk_new (drift_threshold_bp : Nat) : AllocationSet :=
  { drift_threshold_bp := drift_threshold_bp
    rebalance_frequency_seconds := 0
    allocations := []
    last_rebalance := 0 }

/-- Embeds `AllocationSet::add_allocation`.  Mirrors the Rust
`&mut self -> Result<(), &str>` shape as a pair (optional error, final
state); the error branch returns before any mutation, so the state
component is the unchanged input there. -/
def AllocationSet.add_allocation (s : AllocationSet) (a : AssetAllocation) :
    Option String × AllocationSet :=
  if s.allocations.any (fun b => b.asset_id = a.asset_id) then
    (some "Asset already exists in allocation", s)
  else
    (none, { s with allocations := s.allocations ++ [a] })

/-- Helper for `update_allocation`: update the first allocation with the
given asset id (`iter_mut().find` touches only the first match). -/
def updateFirstAllocation (l : List AssetAllocation) (asset_id : String)
    (target_percentage now : Nat) : List AssetAllocation :=
  match l with
  | [] => []
  | a :: rest =>
      if a.asset_id = asset_id then
        a.update_target_percentage target_percentage now :: rest
      else
        a :: updateFirstAllocation rest asset_id target_percentage now

/-- Embeds `AllocationSet::update_allocation`. -/
def AllocationSet.update_allocation (s : AllocationSet) (asset_id : String)
    (target_percentage now : Nat) : Option String × AllocationSet :=
  if s.allocations.any (fun a => a.asset_id = asset_id) then
    (none, { s with allocations :=
      updateFirstAllocation s.allocations asset_id target_percentage now })
  else
    (some "Asset not found in allocation", s)

/-- Helper for `remove_allocation`: remove the first allocation with the
given asset id (`iter().position` finds the first match). -/
def removeFirstAllocation (l : List AssetAllocation) (asset_id : String) :
    List AssetAllocation :=
  match l with
  | [] => []
  | a :: rest =>
      if a.asset_id = asset_id then rest
      else a :: removeFirstAllocation rest asset_id

/-- Embeds `AllocationSet::remove_allocation`. -/
def AllocationSet.remove_allocation (s : AllocationSet) (asset_id : String) :
    Option String × AllocationSet :=
  if s.allocations.any (fun a => a.asset_id = asset_id) then
    (none, { s with allocations := removeFirstAllocation s.allocations asset_id })
  else
    (some "Asset not found in allocation", s)

/-- Embeds `AllocationSet::needs_rebalancing` (clock passed explicitly;
`saturating_sub` is `Nat` subtraction). -/
def AllocationSet.needs_rebalancing (s : AllocationSet) (now : Nat) : Bool :=
  (decide (0 < s.rebalance_frequency_seconds) &&
    decide (s.rebalance_frequency_seconds ≤ now - s.last_rebalance)) ||
  s.allocations.any (fun a => decide (s.drift_threshold_bp < a.drift))

/-- Last-insertion-wins lookup, modelling the `HashMap` the source builds
from a `(key, value)` list (later inserts overwrite earlier ones). -/
def mapLookup (l : List (String × Nat)) (k : String) : Option Nat :=
  l.foldl (fun acc p => if p.1 = k then some p.2 else acc) none

/-- Embeds `AllocationSet::record_rebalance` (set level). -/
def AllocationSet.record_rebalance (s : AllocationSet) (prices : List (String × Nat))
    (now : Nat) : AllocationSet :=
  { s with last_rebalance := now
           allocations := s.allocations.map
             (fun a => a.record_rebalance (mapLookup prices a.asset_id) now) }

/-- Embeds `AllocationSet::validate_percentages`. -/
def AllocationSet.validate_percentages (s : AllocationSet) : Option String :=
  if (s.allocations.map (fun a => a.target_percentage)).sum ≠ 10000 then
    some "Allocation percentages must sum to 100%"
  else
    none

/-- Value lookup with default 0, modelling
`current_value_map.get(asset_id).copied().unwrap_or(0)` over a `HashMap`
built from the `current_values` list (later inserts overwrite). -/
def valueLookup (l : List (String × Nat)) (k : String) : Nat :=
  (mapLookup l k).getD 0

/-- Planner step 1: per-allocation target values,
`total_value * target_percentage / 10000` (truncating division). -/
def targetValues (allocs : List AssetAllocation) (total_value : Nat) :
    List (String × Nat) :=
  allocs.map (fun a => (a.asset_id, total_value * a.target_percentage / 10000))

/-- Planner partition: sellers are assets whose current value exceeds the
target value, carrying the excess. -/
def sellersOf (allocs : List AssetAllocation) (current_values : List (String × Nat))
    (total_value : Nat) : List (String × Nat) :=
  (targetValues allocs total_value).filterMap (fun p =>
    if valueLookup current_values p.1 > p.2 then
      some (p.1, valueLookup current_values p.1 - p.2)
    else none)

/-- Planner partition: buyers are assets whose current value falls short of
the target value, carrying the deficit. -/
def buyersOf (allocs : List AssetAllocation) (current_values : List (String × Nat))
    (total_value : Nat) : List (String × Nat) :=
  (targetValues allocs total_value).filterMap (fun p =>
    if valueLookup current_values p.1 < p.2 then
      some (p.1, p.2 - valueLookup current_values p.1)
    else none)

/-- Greedy two-cursor seller/buyer matching loop of the planner,
structurally recursive on a fuel bound.  The source advances the seller
cursor when its remainder hits 0 and the buyer cursor when its remainder
hits 0; since `amt` is the minimum of the two head amounts, the combined
length of the two lists strictly decreases on every iteration with
`amt > 0`, so fuel equal to that combined length (supplied by
`matchSellersBuyers` below) never runs out.  The `amt = 0` branch never
fires on planner-produced inputs (all partition amounts are positive);
the source would loop forever there, we stop emitting. -/
def matchLoop : Nat → List (String × Nat) → List (String × Nat) →
    List (String × String × Nat)
  | 0, _, _ => []
  | _ + 1, [], _ => []
  | _ + 1, _ :: _, [] => []
  | fuel + 1, (sa, sAmt) :: ss, (ba, bAmt) :: bs =>
      let amt := min sAmt bAmt
      if amt > 0 then
        let rest :=
          if sAmt - amt = 0 then
            if bAmt - amt = 0 then
              matchLoop fuel ss bs
            else
              matchLoop fuel ss ((ba, bAmt - amt) :: bs)
          else
            matchLoop fuel ((sa, sAmt - amt) :: ss) bs
        (sa, ba, amt) :: rest
      else []

/-- The matching loop run with enough fuel for every iteration. -/
def matchSellersBuyers (sellers buyers : List (String × Nat)) :
    List (String × String × Nat) :=
  matchLoop (sellers.length + buyers.length) sellers buyers

/-- Embeds `AllocationSet::calculate_rebalance_transactions`. -/
def AllocationSet.calculate_rebalance_transactions (s : AllocationSet)
    (current_values : List (String × Nat)) (total_value : Nat) :
    List (String × String × Nat) :=
  if total_value = 0 ∨ s.allocations = [] then []
  else
    matchSellersBuyers
      (sellersOf s.allocations current_values total_value)
      (buyersOf s.allocations current_values total_value)

/-- Embeds `RebalanceEngine::generate_rebalance_transactions`, whose body
in `src/rust-contracts/src/rebalance/mod.rs` is line-for-line the same
algorithm as `AllocationSet::calculate_rebalance_transactions`. -/
def RebalanceEngine.generate_rebalance_transactions (allocations : AllocationSet)
    (current_values : List (String × Nat)) (total_value : Nat) :
    List (String × String × Nat) :=
  allocations.calculate_rebalance_transactions current_values total_value

/-- Total excess offered by the planner's sellers. -/
def sellTotal (allocs : List AssetAllocation) (current_values : List (String × Nat))
    (total_value : Nat) : Nat :=
  ((sellersOf allocs current_values total_value).map (fun p => p.2)).sum

/-- Total deficit demanded by the planner's buyers. -/
def buyTotal (allocs : List AssetAllocation) (current_values : List (String × Nat))
    (total_value : Nat) : Nat :=
  ((buyersOf allocs current_values total_value).map (fun p => p.2)).sum

/-- Sum of the current values the planner looks up for each allocation. -/
def currentSum (allocs : List AssetAllocation) (current_values : List (String × Nat)) :
    Nat :=
  (allocs.map (fun a => valueLookup current_values a.asset_id)).sum

/-- Sum of the target percentages of an allocation list. -/
def targetPctSum (allocs : List AssetAllocation) : Nat :=
  (allocs.map (fun a => a.target_percentage)).sum

/-- Embeds `RebalanceStrategy` from `src/rust-contracts/src/rebalance/mod.rs`. -/
inductive RebalanceStrategy
  | Threshold
  | Scheduled
  | OnChange
deriving Repr, DecidableEq

/-- Embeds `RebalanceStatus`. -/
inductive RebalanceStatus
  | Pending
  | InProgress
  | Completed
  | Failed
  | Cancelled
deriving Repr, DecidableEq

/-- Embeds `XTalkError` from `src/rust-contracts/src/xtalk/mod.rs`. -/
inductive XTalkError
  | InsufficientSignatures
  | InvalidSignature
  | MessageNotFound
  | Timeout
  | InvalidChain
  | ServerError (msg : String)
  | NotPermitted
  | DuplicateMessage
  | InvalidValidator
deriving Repr, DecidableEq

/-- Rust `Debug` formatting of an `XTalkError`, used for the
`format!("{:?}", error)` stored on a failed transaction. -/
def XTalkError.debugFmt : XTalkError → String
  | .InsufficientSignatures => "InsufficientSignatures"
  | .InvalidSignature => "InvalidSignature"
  | .MessageNotFound => "MessageNotFound"
  | .Timeout => "Timeout"
  | .InvalidChain => "InvalidChain"
  | .ServerError msg => "ServerError(\"" ++ msg ++ "\")"
  | .NotPermitted => "NotPermitted"
  | .DuplicateMessage => "DuplicateMessage"
  | .InvalidValidator => "InvalidValidator"

/-- Embeds `XTalkSwapResult`. -/
structure XTalkSwapResult where
  tx_id : String
  source_asset : String
  source_amount : Nat
  target_asset : String
  target_amount : Nat
  actual_rate_bps : Nat
  fee : Nat
  completed_at : Nat
deriving Repr, DecidableEq

/-- Embeds the swap request the executor builds in
`RebalanceOperation::execute` (slippage fixed at 50 bps there). -/
structure XTalkSwapRequest where
  source_asset : String
  target_asset : String
  amount : Nat
  slippage_bps : Nat
deriving Repr, DecidableEq

/-- The external swap executor (`XTalkClient::execute_swap`) is an
out-of-core collaborator; the executor logic is parametric in it. -/
def SwapExec : Type := XTalkSwapRequest → Except XTalkError XTalkSwapResult

/-- Embeds `RebalanceTransaction`. -/
structure RebalanceTransaction where
  source_asset : String
  target_asset : String
  amount : Nat
  result : Option XTalkSwapResult
  status : RebalanceStatus
  error : Option String
deriving Repr, DecidableEq

/-- Embeds `RebalanceOperation`. -/
structure RebalanceOperation where
  id : String
  strategy : RebalanceStrategy
  transactions : List RebalanceTransaction
  status : RebalanceStatus
  start_time : Nat
  end_time : Option Nat
  total_cost : Option Nat
deriving Repr, DecidableEq

/-- Embeds `RebalanceOperation::new`. -/
def RebalanceOperation.mk_new (id : String) (strategy : RebalanceStrategy) (now : Nat) :
    RebalanceOperation :=
  { id := id
    strategy := strategy
    transactions := []
    status := .Pending
    start_time := now
    end_time := none
    total_cost := none }

/-- Embeds `RebalanceOperation::add_transaction`. -/
def RebalanceOperation.add_transaction (op : RebalanceOperation)
    (source_asset target_asset : String) (amount : Nat) : RebalanceOperation :=
  { op with transactions := op.transactions ++
      [{ source_asset := source_asset
         target_asset := target_asset
         amount := amount
         result := none
         status := .Pending
         error := none }] }

/-- Embeds `RebalanceEngine::create_rebalance_operation`. -/
def RebalanceEngine.create_rebalance_operation (id : String)
    (strategy : RebalanceStrategy) (txs : List (String × String × Nat)) (now : Nat) :
    RebalanceOperation :=
  txs.foldl (fun op t => op.add_transaction t.1 t.2.1 t.2.2)
    (RebalanceOperation.mk_new id strategy now)

/-- Saturating `u128` addition used by `calculate_total_cost`. -/
def satAdd128 (a b : Nat) : Nat := min (a + b) (2 ^ 128 - 1)

/-- Embeds `RebalanceOperation::calculate_total_cost`: sums the fee of
every transaction that has a result, with saturating addition. -/
def totalCostOf (txs : List RebalanceTransaction) : Nat :=
  txs.foldl (fun total t =>
    match t.result with
    | some r => satAdd128 total r.fee
    | none => total) 0

/-- The swap request `RebalanceOperation::execute` builds for one
transaction (slippage 50 bps). -/
def requestOf (t : RebalanceTransaction) : XTalkSwapRequest :=
  { source_asset := t.source_asset
    target_asset := t.target_asset
    amount := t.amount
    slippage_bps := 50 }

/-- One iteration of the executor's transaction loop, carried by a fold:
the accumulator is the processed transactions plus the `all_success`
flag.  Non-pending transactions are skipped unchanged; a pending one is
executed and marked `Completed` or `Failed`, clearing `all_success` on
failure.  Execution continues past failures regardless of the strategy. -/
def execStep (exec : SwapExec) (acc : List RebalanceTransaction × Bool)
    (t : RebalanceTransaction) : List RebalanceTransaction × Bool :=
  if t.status ≠ .Pending then
    (acc.1 ++ [t], acc.2)
  else
    match exec (requestOf t) with
    | .ok r => (acc.1 ++ [{ t with result := some r, status := .Completed }], acc.2)
    | .error e =>
        (acc.1 ++ [{ t with error := some e.debugFmt, status := .Failed }], false)

/-- Embeds `RebalanceOperation::execute`.  A non-`Pending` operation
returns `Ok(())` immediately without touching any state.  Otherwise every
pending transaction is executed in list order; the final status is
`Completed` when `all_success` survived (every processed transaction
succeeded) and `Failed` otherwise, `end_time` is stamped by
`update_status`, and `calculate_total_cost` fills `total_cost`. -/
def RebalanceOperation.execute (exec : SwapExec) (now : Nat)
    (op : RebalanceOperation) : Except XTalkError Unit × RebalanceOperation :=
  if op.status ≠ .Pending then
    (.ok (), op)
  else
    let stepped := op.transactions.foldl (execStep exec) ([], true)
    let finalStatus : RebalanceStatus := if stepped.2 then .Completed else .Failed
    (.ok (), { op with transactions := stepped.1
                       status := finalStatus
                       end_time := some now
                       total_cost := some (totalCostOf stepped.1) })

/-- Embeds `TakeProfitType` from `src/rust-contracts/src/take_profit/mod.rs`. -/
inductive TakeProfitType
  | Manual
  | Percentage (percentage : Nat)
  | Time (interval_seconds : Nat)
deriving Repr, DecidableEq

/-- Embeds `TakeProfitStrategy`. -/
structure TakeProfitStrategy where
  strategy_type : TakeProfitType
  last_execution : Nat
  baseline_value : Nat
deriving Repr, DecidableEq

/-- Embeds `TakeProfitStrategy::new`: `last_execution` and
`baseline_value` start at 0. -/
def TakeProfitStrategy.mk_new (strategy_type : TakeProfitType) : TakeProfitStrategy :=
  { strategy_type := strategy_type, last_execution := 0, baseline_value := 0 }

/-- Current value used by the percentage strategy: the sum of the
supplied prices. -/
def priceSum (current_prices : List (String × Nat)) : Nat :=
  (current_prices.map (fun p => p.2)).sum

/-- Embeds `TakeProfitStrategy::should_execute` (clock explicit;
`saturating_sub` is `Nat` subtraction). -/
def TakeProfitStrategy.should_execute (s : TakeProfitStrategy)
    (current_prices : List (String × Nat)) (now : Nat) : Bool :=
  match s.strategy_type with
  | .Manual => false
  | .Percentage percentage =>
      if s.baseline_value = 0 then false
      else
        let current_value := priceSum current_prices
        if current_value ≤ s.baseline_value then false
        else
          decide (percentage ≤
            (current_value - s.baseline_value) * 10000 / s.baseline_value)
  | .Time interval_seconds =>
      decide (interval_seconds ≤ now - s.last_execution)

/-- One step of the `AssetAllocation` mutator API, for stating the
percentage-range invariant over arbitrary operation sequences. -/
inductive AllocOp
  | updTarget (percentage now : Nat)
  | updCurrent (percentage now : Nat)
  | recRebalance (price : Option Nat) (now : Nat)
deriving Repr, DecidableEq

/-- Applies one mutator to an allocation. -/
def applyOp (a : AssetAllocation) : AllocOp → AssetAllocation
  | .updTarget p n => a.update_target_percentage p n
  | .updCurrent p n => a.update_current_percentage p n
  | .recRebalance pr n => a.record_rebalance pr n

/-- Applies a sequence of mutators, left to right. -/
def applyOps (a : AssetAllocation) (ops : List AllocOp) : AssetAllocation :=
  ops.foldl applyOp a

/-- Whether the percentage argument carried by an operation is within
10000 basis points (`record_rebalance` carries no percentage). -/
def opArgInRange : AllocOp → Bool
  | .updTarget p _ => decide (p ≤ 10000)
  | .updCurrent p _ => decide (p ≤ 10000)
  | .recRebalance _ _ => true

/-- Concrete BTC allocation, target 6000 bp. -/
def btcA : AssetAllocation := AssetAllocation.new "BTC" 6000 0

/-- Concrete ETH allocation, target 4000 bp. -/
def ethA : AssetAllocation := AssetAllocation.new "ETH" 4000 0

/-- Concrete two-asset set (BTC 6000 / ETH 4000, threshold 300 bp). -/
def setA : AllocationSet :=
  { drift_threshold_bp := 300
    rebalance_frequency_seconds := 0
    allocations := [btcA, ethA]
    last_rebalance := 0 }

/-- Threshold-300 set with both assets drifted by exactly 300 bp. -/
def set300 : AllocationSet :=
  { drift_threshold_bp := 300
    rebalance_frequency_seconds := 0
    allocations :=
      [(AssetAllocation.new "BTC" 5000 0).update_current_percentage 5300 0,
       (AssetAllocation.new "ETH" 5000 0).update_current_percentage 4700 0]
    last_rebalance := 0 }

/-- Same set with one asset drifted to 301 bp instead. -/
def set301 : AllocationSet :=
  { set300 with allocations :=
      [(AssetAllocation.new "BTC" 5000 0).update_current_percentage 5301 0,
       (AssetAllocation.new "ETH" 5000 0).update_current_percentage 4700 0] }

/-- A concrete successful swap result. -/
def okRes : XTalkSwapResult :=
  { tx_id := "tx-1"
    source_asset := "BTC"
    source_amount := 100
    target_asset := "ETH"
    target_amount := 99
    actual_rate_bps := 9900
    fee := 7
    completed_at := 5 }

/-- Swap executor that fails exactly the swap targeting ETH. -/
def failFirstExec : SwapExec := fun req =>
  if req.target_asset = "ETH" then .error .Timeout else .ok okRes

/-- Swap executor that always succeeds. -/
def alwaysOkExec : SwapExec := fun _ => .ok okRes

/-- Concrete pending operation with two transactions under the
`Threshold` strategy. -/
def op2 : RebalanceOperation :=
  RebalanceEngine.create_rebalance_operation "op-1" .Threshold
    [("BTC", "ETH", 100), ("BTC", "SOL", 50)] 0

/-- A concrete already-completed operation. -/
def opDone : RebalanceOperation :=
  { id := "op-done"
    strategy := .Scheduled
    transactions := [{ source_asset := "BTC", target_asset := "ETH", amount := 3,
                       result := some okRes, status := .Completed, error := none }]
    status := .Completed
    start_time := 1
    end_time := some 2
    total_cost := some 7 }

/-- C5: for the set {BTC target 6000 bp, ETH target 4000 bp} with current
values BTC = 7000 and ETH = 3000 and total value 10000, the planner
(both the `AllocationSet` method and the `RebalanceEngine` copy) emits
exactly the single transaction (BTC, ETH, 1000). -/
theorem concrete_rebalance_single_tx :
    setA.calculate_rebalance_transactions [("BTC", 7000), ("ETH", 3000)] 10000
      = [("BTC", "ETH", 1000)] ∧
    RebalanceEngine.generate_rebalance_transactions setA
      [("BTC", 7000), ("ETH", 3000)] 10000 = [("BTC", "ETH", 1000)] := by
  constructor <;> rfl

/-- C9: executing an operation whose status is not `Pending` returns
`Ok(())` and leaves the operation exactly as it was (status,
transactions, end time and total cost untouched): a completed, failed,
in-progress or cancelled operation is never re-executed. -/
theorem execute_non_pending_frame (exec : SwapExec) (now : Nat)
    (op : RebalanceOperation) (h : op.status ≠ RebalanceStatus.Pending) :
    op.execute exec now = (Except.ok (), op) := by
  simp [RebalanceOperation.execute, h]

/-- Witness for C9: a concrete completed operation is returned unchanged. -/
theorem execute_non_pending_frame_witness :
    opDone.status ≠ RebalanceStatus.Pending ∧
    opDone.execute alwaysOkExec 5 = (Except.ok (), opDone) :=
  ⟨by decide, execute_non_pending_frame alwaysOkExec 5 opDone (by decide)⟩

/-- C10: a freshly constructed time-based take-profit strategy has
`last_execution = 0`, so `should_execute` already returns true whenever
the current block timestamp is at least the interval — it fires on its
very first evaluation, with no prior execution. -/
theorem time_strategy_first_fire (interval_seconds now : Nat)
    (prices : List (String × Nat)) (h : interval_seconds ≤ now) :
    (TakeProfitStrategy.mk_new (.Time interval_seconds)).last_execution = 0 ∧
    (TakeProfitStrategy.mk_new (.Time interval_seconds)).should_execute prices now
      = true := by
  refine ⟨rfl, ?_⟩
  simp [TakeProfitStrategy.mk_new, TakeProfitStrategy.should_execute]
  omega

/-- Witness for C10: interval 3600, first evaluation at time 3600. -/
theorem time_strategy_first_fire_witness :
    (3600 ≤ 3600) ∧
    ((TakeProfitStrategy.mk_new (.Time 3600)).last_execution = 0 ∧
     (TakeProfitStrategy.mk_new (.Time 3600)).should_execute [] 3600 = true) :=
  ⟨by decide, time_strategy_first_fire 3600 3600 [] (by decide)⟩

/-- C3 counterexample: the mutators perform no upper-bound check, so a
single `update_target_percentage(20000)` on an in-range allocation
drives `target_percentage` to 20000, outside [0, 10000]. -/
theorem percentage_range_counterexample :
    10000 <
      (applyOps (AssetAllocation.new "BTC" 6000 0)
        [AllocOp.updTarget 20000 1]).target_percentage := by
  decide

/-- C3 amended: the percentages stay within [0, 10000] (the lower bound
is automatic for the unsigned fields) provided every percentage argument
supplied to the mutators is itself at most 10000; `record_rebalance`
introduces no new percentage value. -/
theorem percentage_range_invariant (a : AssetAllocation) (ops : List AllocOp)
    (hc : a.current_percentage ≤ 10000) (ht : a.target_percentage ≤ 10000)
    (hops : ∀ op ∈ ops, opArgInRange op = true) :
    (applyOps a ops).current_percentage ≤ 10000 ∧
    (applyOps a ops).target_percentage ≤ 10000 := by
  induction ops generalizing a with
  | nil => exact ⟨hc, ht⟩
  | cons op rest ih =>
      have hop := hops op (List.mem_cons_self op rest)
      have hrest : ∀ o ∈ rest, opArgInRange o = true :=
        fun o ho => hops o (List.mem_cons_of_mem op ho)
      cases op with
      | updTarget p n =>
          have hp : p ≤ 10000 := by simpa [opArgInRange] using hop
          exact ih (a.update_target_percentage p n) hc hp hrest
      | updCurrent p n =>
          have hp : p ≤ 10000 := by simpa [opArgInRange] using hop
          exact ih (a.update_current_percentage p n) hp ht hrest
      | recRebalance pr n =>
          exact ih (a.record_rebalance pr n) ht ht hrest

/-- Witness for C3 amended: a concrete in-range run. -/
theorem percentage_range_invariant_witness :
    (applyOps (AssetAllocation.new "BTC" 6000 0)
        [AllocOp.updTarget 7000 1, AllocOp.updCurrent 6500 2,
         AllocOp.recRebalance (some 50000) 3]).current_percentage ≤ 10000 ∧
    (applyOps (AssetAllocation.new "BTC" 6000 0)
        [AllocOp.updTarget 7000 1, AllocOp.updCurrent 6500 2,
         AllocOp.recRebalance (some 50000) 3]).target_percentage ≤ 10000 :=
  percentage_range_invariant (AssetAllocation.new "BTC" 6000 0) _
    (by decide) (by decide) (by decide)

/-- C4: `needs_rebalancing` is true exactly when the rebalance frequency
is positive and the saturating elapsed time since `last_rebalance`
reaches it, or some allocation drifts strictly beyond the threshold; in
particular with threshold 300 bp, all assets drifted by exactly 300 bp
give false, and drifting one asset to 301 bp gives true. -/
theorem needs_rebalancing_spec :
    (∀ (s : AllocationSet) (now : Nat),
      s.needs_rebalancing now = true ↔
        ((0 < s.rebalance_frequency_seconds ∧
            s.rebalance_frequency_seconds ≤ now - s.last_rebalance) ∨
          ∃ a ∈ s.allocations, s.drift_threshold_bp < a.drift)) ∧
    set300.needs_rebalancing 100 = false ∧
    set301.needs_rebalancing 100 = true := by
  refine ⟨fun s now => ?_, by decide, by decide⟩
  simp [AllocationSet.needs_rebalancing, List.any_eq_true]

/-- Folding the map-lookup step over pairs none of which match the key
leaves the accumulator unchanged. -/
theorem foldl_lookup_of_no_match (l : List (String × Nat)) (k : String)
    (acc : Option Nat) (h : ∀ p ∈ l, p.1 ≠ k) :
    l.foldl (fun acc p => if p.1 = k then some p.2 else acc) acc = acc := by
  induction l generalizing acc with
  | nil => rfl
  | cons p rest ih =>
      have hp : p.1 ≠ k := h p (List.mem_cons_self p rest)
      simp only [List.foldl_cons, if_neg hp]
      exact ih acc (fun q hq => h q (List.mem_cons_of_mem p hq))

/-- A key carried by no pair of the price list looks up to `none`. -/
theorem mapLookup_eq_none (l : List (String × Nat)) (k : String)
    (h : ∀ p ∈ l, p.1 ≠ k) : mapLookup l k = none :=
  foldl_lookup_of_no_match l k none h

/-- C6: after `record_rebalance(prices)` the set's `last_rebalance` is the
current time and every allocation has `current_percentage =
target_percentage` (hence zero drift), its own `last_rebalance` stamped,
and `last_price` taken from the price map by asset id — an asset missing
from the map gets `last_price = none` rather than an error. -/
theorem record_rebalance_resets (s : AllocationSet)
    (prices : List (String × Nat)) (now : Nat) :
    (s.record_rebalance prices now).last_rebalance = now ∧
    ∀ a ∈ (s.record_rebalance prices now).allocations,
      a.current_percentage = a.target_percentage ∧
      a.drift = 0 ∧
      a.last_rebalance = now ∧
      a.last_price = mapLookup prices a.asset_id ∧
      ((∀ p ∈ prices, p.1 ≠ a.asset_id) → a.last_price = none) := by
  refine ⟨rfl, ?_⟩
  intro a ha
  simp only [AllocationSet.record_rebalance, List.mem_map] at ha
  obtain ⟨b, _, rfl⟩ := ha
  refine ⟨rfl, ?_, rfl, rfl, ?_⟩
  · simp [AssetAllocation.drift, AssetAllocation.record_rebalance]
  · intro hmiss
    simpa [AssetAllocation.record_rebalance] using
      mapLookup_eq_none prices b.asset_id hmiss

/-- The BTC allocation of `setA` after recording a rebalance at time 9
with price 50000. -/
def btcAfter : AssetAllocation :=
  { asset_id := "BTC"
    current_percentage := 6000
    target_percentage := 6000
    last_modified := 0
    last_rebalance := 9
    last_price := some 50000 }

/-- Witness for C6: the concrete BTC allocation after a rebalance. -/
theorem record_rebalance_resets_witness :
    btcAfter.current_percentage = btcAfter.target_percentage ∧
    btcAfter.drift = 0 ∧
    btcAfter.last_rebalance = 9 ∧
    btcAfter.last_price = mapLookup [("BTC", 50000)] btcAfter.asset_id ∧
    ((∀ p ∈ [("BTC", (50000 : Nat))], p.1 ≠ btcAfter.asset_id) →
      btcAfter.last_price = none) :=
  (record_rebalance_resets setA [("BTC", 50000)] 9).2 btcAfter (by decide)

/-- C7: the percentage take-profit strategy fires exactly when the
baseline is nonzero, the current value (the sum of the supplied prices)
strictly exceeds the baseline, and the integer gain in basis points
`(current - baseline) * 10000 / baseline` reaches the configured
percentage; a `Manual` strategy never fires.  Concretely, with baseline
1000 and a 1000 bp strategy, current value 1200 fires and 1050 does not. -/
theorem take_profit_percentage_spec :
    (∀ (pct le b now : Nat) (prices : List (String × Nat)),
      TakeProfitStrategy.should_execute ⟨.Percentage pct, le, b⟩ prices now =
        (decide (b ≠ 0) && decide (b < priceSum prices) &&
          decide (pct ≤ (priceSum prices - b) * 10000 / b))) ∧
    (∀ (le b now : Nat) (prices : List (String × Nat)),
      TakeProfitStrategy.should_execute ⟨.Manual, le, b⟩ prices now = false) ∧
    TakeProfitStrategy.should_execute ⟨.Percentage 1000, 0, 1000⟩ [("BTC", 1200)] 0
      = true ∧
    TakeProfitStrategy.should_execute ⟨.Percentage 1000, 0, 1000⟩ [("BTC", 1050)] 0
      = false := by
  refine ⟨?_, fun le b now prices => rfl, by decide, by decide⟩
  intro pct le b now prices
  simp only [TakeProfitStrategy.should_execute]
  by_cases hb : b = 0
  · subst hb; simp
  · by_cases hc : priceSum prices ≤ b
    · simp [hb, hc, Nat.not_lt.mpr hc]
    · simp [hb, hc, Nat.lt_of_not_le hc]

/-- C8: `add_allocation` fails exactly on a duplicate asset id,
`update_allocation` and `remove_allocation` fail exactly when the asset
id is absent, `validate_percentages` fails exactly when the target
percentages do not sum to 10000, and every failing call leaves the
allocation set completely unchanged. -/
theorem validation_error_spec (s : AllocationSet) (a : AssetAllocation)
    (asset_id : String) (pct now : Nat) :
    ((s.add_allocation a).1 ≠ none ↔
      ∃ b ∈ s.allocations, b.asset_id = a.asset_id) ∧
    ((s.add_allocation a).1 ≠ none → (s.add_allocation a).2 = s) ∧
    ((s.update_allocation asset_id pct now).1 ≠ none ↔
      ¬ ∃ b ∈ s.allocations, b.asset_id = asset_id) ∧
    ((s.update_allocation asset_id pct now).1 ≠ none →
      (s.update_allocation asset_id pct now).2 = s) ∧
    ((s.remove_allocation asset_id).1 ≠ none ↔
      ¬ ∃ b ∈ s.allocations, b.asset_id = asset_id) ∧
    ((s.remove_allocation asset_id).1 ≠ none →
      (s.remove_allocation asset_id).2 = s) ∧
    (s.validate_percentages ≠ none ↔ targetPctSum s.allocations ≠ 10000) := by
  refine ⟨?_, ?_, ?_, ?_, ?_, ?_, ?_⟩
  · simp only [AllocationSet.add_allocation]
    split_ifs with h' <;> simp_all [List.any_eq_true]
  · simp only [AllocationSet.add_allocation]
    split_ifs with h' <;> simp_all
  · simp only [AllocationSet.update_allocation]
    split_ifs with h' <;> simp_all [List.any_eq_true]
  · simp only [AllocationSet.update_allocation]
    split_ifs with h' <;> simp_all
  · simp only [AllocationSet.remove_allocation]
    split_ifs with h' <;> simp_all [List.any_eq_true]
  · simp only [AllocationSet.remove_allocation]
    split_ifs with h' <;> simp_all
  · simp only [AllocationSet.validate_percentages]
    split_ifs with h' <;> simp_all [targetPctSum]

/-- Witness for C8: adding a duplicate BTC allocation to `setA` fails
and leaves the set unchanged. -/
theorem validation_error_spec_witness :
    (setA.add_allocation (AssetAllocation.new "BTC" 5000 0)).2 = setA :=
  (validation_error_spec setA (AssetAllocation.new "BTC" 5000 0) "SOL" 100 1).2.1
    (by decide)

/-- C1 counterexample: a pending `Threshold` operation with two
transactions whose executor fails the first swap and completes the
second ends with its transaction statuses `[Failed, Completed]` — the
second transaction did execute — yet the overall status is `Failed`, not
`Completed`: the code has no partial-success policy, under any strategy. -/
theorem partial_failure_status_counterexample :
    (op2.execute failFirstExec 5).2.transactions.map (fun t => t.status)
      = [RebalanceStatus.Failed, RebalanceStatus.Completed] ∧
    (op2.execute failFirstExec 5).2.status ≠ RebalanceStatus.Completed ∧
    (op2.execute failFirstExec 5).2.status = RebalanceStatus.Failed := by
  refine ⟨rfl, by decide, rfl⟩

/-- C1 amended: for a pending operation with two pending transactions
where the executor fails the first and completes the second, `execute`
still runs the second transaction (it ends `Completed` with its result
recorded), but the overall status is `Failed` — the aggregate status is
`Completed` only when every transaction succeeds, regardless of the
strategy. -/
theorem partial_failure_amended (exec : SwapExec) (now : Nat)
    (op : RebalanceOperation) (t1 t2 : RebalanceTransaction) (e : XTalkError)
    (r : XTalkSwapResult)
    (hop : op.status = RebalanceStatus.Pending)
    (htx : op.transactions = [t1, t2])
    (h1 : t1.status = RebalanceStatus.Pending)
    (h2 : t2.status = RebalanceStatus.Pending)
    (hx1 : exec (requestOf t1) = .error e)
    (hx2 : exec (requestOf t2) = .ok r) :
    (op.execute exec now).2.transactions =
      [{ t1 with error := some e.debugFmt, status := RebalanceStatus.Failed },
       { t2 with result := some r, status := RebalanceStatus.Completed }] ∧
    (op.execute exec now).2.status = RebalanceStatus.Failed := by
  simp [RebalanceOperation.execute, hop, htx, execStep, h1, h2, hx1, hx2]

/-- First transaction of `op2`. -/
def t1c : RebalanceTransaction :=
  { source_asset := "BTC", target_asset := "ETH", amount := 100,
    result := none, status := .Pending, error := none }

/-- Second transaction of `op2`. -/
def t2c : RebalanceTransaction :=
  { source_asset := "BTC", target_asset := "SOL", amount := 50,
    result := none, status := .Pending, error := none }

/-- Witness for C1 amended: the concrete two-transaction operation under
the executor that fails only the ETH-targeting swap. -/
theorem partial_failure_amended_witness :
    (op2.execute failFirstExec 5).2.transactions =
      [{ t1c with error := some XTalkError.Timeout.debugFmt,
                  status := RebalanceStatus.Failed },
       { t2c with result := some okRes, status := RebalanceStatus.Completed }] ∧
    (op2.execute failFirstExec 5).2.status = RebalanceStatus.Failed :=
  partial_failure_amended failFirstExec 5 op2 t1c t2c .Timeout okRes
    rfl rfl rfl rfl rfl rfl

/-- The seller excesses summed over the partition equal the truncated
per-entry excess `c - t` summed over all targets (entries at or below
target contribute `0` by `Nat` subtraction). -/
theorem filterMap_sell_sum (l cv : List (String × Nat)) :
    ((l.filterMap (fun p =>
        if valueLookup cv p.1 > p.2 then some (p.1, valueLookup cv p.1 - p.2)
        else none)).map (fun p => p.2)).sum
      = (l.map (fun p => valueLookup cv p.1 - p.2)).sum := by
  induction l with
  | nil => rfl
  | cons p t ih =>
      simp only [List.filterMap_cons]
      by_cases h : valueLookup cv p.1 > p.2
      · simp [h, ih]
      · have h0 : valueLookup cv p.1 - p.2 = 0 :=
          Nat.sub_eq_zero_of_le (Nat.le_of_not_lt h)
        simp [h, ih, h0]

/-- The buyer deficits summed over the partition equal the truncated
per-entry deficit `t - c` summed over all targets. -/
theorem filterMap_buy_sum (l cv : List (String × Nat)) :
    ((l.filterMap (fun p =>
        if valueLookup cv p.1 < p.2 then some (p.1, p.2 - valueLookup cv p.1)
        else none)).map (fun p => p.2)).sum
      = (l.map (fun p => p.2 - valueLookup cv p.1)).sum := by
  induction l with
  | nil => rfl
  | cons p t ih =>
      simp only [List.filterMap_cons]
      by_cases h : valueLookup cv p.1 < p.2
      · simp [h, ih]
      · have h0 : p.2 - valueLookup cv p.1 = 0 :=
          Nat.sub_eq_zero_of_le (Nat.le_of_not_lt h)
        simp [h, ih, h0]

/-- Pointwise accounting identity over a target-value list: excess plus
target equals deficit plus current, entry by entry. -/
theorem pair_sum_identity (tv cv : List (String × Nat)) :
    (tv.map (fun p => valueLookup cv p.1 - p.2)).sum + (tv.map (fun p => p.2)).sum
      = (tv.map (fun p => p.2 - valueLookup cv p.1)).sum
        + (tv.map (fun p => valueLookup cv p.1)).sum := by
  induction tv with
  | nil => rfl
  | cons p t ih =>
      simp only [List.map_cons, List.sum_cons]
      omega

/-- The current values looked up through the target-value list coincide
with `currentSum` (the list keeps each allocation's asset id). -/
theorem currentSum_eq_over_targets (allocs : List AssetAllocation)
    (cv : List (String × Nat)) (total : Nat) :
    ((targetValues allocs total).map (fun p => valueLookup cv p.1)).sum
      = currentSum allocs cv := by
  simp only [targetValues, currentSum, List.map_map]
  rfl

/-- Accounting identity of the planner partition: seller total plus the
sum of target values equals buyer total plus the sum of looked-up
current values. -/
theorem sell_buy_accounting (allocs : List AssetAllocation)
    (cv : List (String × Nat)) (total : Nat) :
    sellTotal allocs cv total
        + ((targetValues allocs total).map (fun p => p.2)).sum
      = buyTotal allocs cv total + currentSum allocs cv := by
  have hs := filterMap_sell_sum (targetValues allocs total) cv
  have hb := filterMap_buy_sum (targetValues allocs total) cv
  have hp := pair_sum_identity (targetValues allocs total) cv
  have hc := currentSum_eq_over_targets allocs cv total
  simp only [sellTotal, sellersOf, buyTotal, buyersOf]
  omega

/-- Bounds on the truncating target-value sum: it never exceeds
`total * Σ pct / 10000`-worth, and each entry loses strictly less than
one 10000th, so the loss over the whole set is below the entry count. -/
theorem targetValues_sum_bounds (allocs : List AssetAllocation) (total : Nat) :
    10000 * ((targetValues allocs total).map (fun p => p.2)).sum
        ≤ total * targetPctSum allocs ∧
    total * targetPctSum allocs
      ≤ 10000 * ((targetValues allocs total).map (fun p => p.2)).sum
          + 10000 * allocs.length := by
  induction allocs with
  | nil => simp [targetValues, targetPctSum]
  | cons a l ih =>
      simp only [targetValues, targetPctSum, List.map_cons, List.sum_cons,
        List.length_cons] at ih ⊢
      simp only [Nat.mul_add]
      have hdm := Nat.div_add_mod (total * a.target_percentage) 10000
      have hml : total * a.target_percentage % 10000 < 10000 :=
        Nat.mod_lt _ (by norm_num)
      generalize total * a.target_percentage = tp at hdm hml ⊢
      generalize total * (l.map (fun x => x.target_percentage)).sum = ts at ih ⊢
      omega

/-- C2: whenever the target percentages sum to 10000 and the looked-up
current values sum to the (positive) total value, the planner's total
"buy" amount and total "sell" amount agree up to at most the number of
assets in the set (truncating division loses less than one unit per
asset, always downward, so sells can exceed buys by at most that). -/
theorem planner_balance (s : AllocationSet) (cv : List (String × Nat))
    (total : Nat) (hsum : targetPctSum s.allocations = 10000) (hpos : 0 < total)
    (hcv : currentSum s.allocations cv = total) :
    buyTotal s.allocations cv total ≤ sellTotal s.allocations cv total ∧
    sellTotal s.allocations cv total
      ≤ buyTotal s.allocations cv total + s.allocations.length := by
  have hpt := sell_buy_accounting s.allocations cv total
  have hb := targetValues_sum_bounds s.allocations total
  rw [hsum] at hb
  rw [hcv] at hpt
  omega

/-- Witness for C2: the concrete BTC/ETH set with current values 7000
and 3000 against total 10000. -/
theorem planner_balance_witness :
    buyTotal setA.allocations [("BTC", 7000), ("ETH", 3000)] 10000
      ≤ sellTotal setA.allocations [("BTC", 7000), ("ETH", 3000)] 10000 ∧
    sellTotal setA.allocations [("BTC", 7000), ("ETH", 3000)] 10000
      ≤ buyTotal setA.allocations [("BTC", 7000), ("ETH", 3000)] 10000
          + setA.allocations.length :=
  planner_balance setA [("BTC", 7000), ("ETH", 3000)] 10000
    (by decide) (by decide) (by decide)

end OneCapital
